import Mathlib

/-!
Verification of the flow-execution core of the authentik/passbook repository.

The definitions below are a shallow embedding of the source files:
* src/authentik/flows/models.py   (flow data model, in-memory stages)
* src/authentik/flows/stage.py    (StageView / ChallengeStageView)
* src/authentik/policies/types.py (PolicyRequest)
* src/passbook/core/auth/view.py  (legacy AuthenticationView executor)

Machinery that the excerpt only references (FlowPlan, FlowExecutorView.restart_flow,
GeoIP reader, client-IP extraction) is modelled from the specification; each such
definition carries a doc comment saying so.  The theorems at the end of the file
settle the specification claims against this embedding.
-/

/-- InvalidResponseAction from src/authentik/flows/models.py: configures how the
flow executor handles an invalid response to a challenge. -/
inductive InvalidResponseAction where
  | retry
  | restart
  | restart_with_context
  deriving DecidableEq, Repr

/-- FlowStageBinding from src/authentik/flows/models.py: the join row linking a
Flow (`target`) to a Stage (`stage`), with its planning/presentation flags and
sort key.  Rows are identified here by the columns the claims speak about;
`target` and `stage` are the foreign-key ids. -/
structure FlowStageBinding where
  target : Nat
  stage : Nat
  evaluate_on_plan : Bool
  re_evaluate_policies : Bool
  invalid_response_action : InvalidResponseAction
  order : Int
  deriving DecidableEq, Repr

/-- Construction of a FlowStageBinding giving only the required columns; the
remaining columns take the declared Django field defaults:
`evaluate_on_plan` (default=True), `re_evaluate_policies` (default=False),
`invalid_response_action` (default=InvalidResponseAction.RETRY). -/
def FlowStageBinding.make (target stage : Nat) (order : Int) : FlowStageBinding :=
  { target := target
    stage := stage
    order := order
    evaluate_on_plan := true
    re_evaluate_policies := false
    invalid_response_action := InvalidResponseAction.retry }

/-- The database uniqueness constraint declared in `FlowStageBinding.Meta`:
`unique_together = (("target", "stage", "order"),)` — no two rows agree
simultaneously on target, stage and order. -/
def fsbUniqueTogether (rows : List FlowStageBinding) : Prop :=
  rows.Pairwise fun a b => ¬(a.target = b.target ∧ a.stage = b.stage ∧ a.order = b.order)

/-- The property as the specification words it: `order` is unique within a flow,
independent of which stage each binding references. -/
def fsbOrderUniquePerFlow (rows : List FlowStageBinding) : Prop :=
  rows.Pairwise fun a b => a.target = b.target → a.order ≠ b.order

/-- Order uniqueness per (flow, stage) pair — what the declared constraint
actually enforces. -/
def fsbOrderUniquePerFlowStage (rows : List FlowStageBinding) : Prop :=
  rows.Pairwise fun a b => a.target = b.target → a.stage = b.stage → a.order ≠ b.order

instance (rows : List FlowStageBinding) : Decidable (fsbUniqueTogether rows) := by
  unfold fsbUniqueTogether; infer_instance

instance (rows : List FlowStageBinding) : Decidable (fsbOrderUniquePerFlow rows) := by
  unfold fsbOrderUniquePerFlow; infer_instance

instance (rows : List FlowStageBinding) : Decidable (fsbOrderUniquePerFlowStage rows) := by
  unfold fsbOrderUniquePerFlowStage; infer_instance

/-- Stage from src/authentik/flows/models.py.  `V` stands for the Python type
`Type[StageView]` of view classes.  `in_memory_type` models the
`__in_memory_type` attribute: it is set (to the view class) exactly by
`in_memory_stage`; on a stage not built through `in_memory_stage` the
attribute is absent (`none`). -/
structure Stage (V : Type) where
  name : Option String
  in_memory_type : Option V
  deriving Repr

/-- Stage.type property from src/authentik/flows/models.py: return the
in-memory view class when the `__in_memory_type` attribute is set, otherwise
`raise NotImplementedError` — embedded as `Except`. -/
def Stage.type {V : Type} (s : Stage V) : Except String V :=
  match s.in_memory_type with
  | some view => Except.ok view
  | none => Except.error "NotImplementedError"

/-- in_memory_stage from src/authentik/flows/models.py: create a fresh `Stage()`
and attach the view class as its `__in_memory_type` attribute. -/
def in_memory_stage {V : Type} (view : V) : Stage V :=
  { name := none, in_memory_type := some view }

/-- The slice of a Django HttpRequest that `PolicyRequest.set_http_request`
consumes: `get_client_ip(request)` (authentik/lib/utils/http.py, outside the
excerpt) is modelled as data carried on the request. -/
structure HttpRequest where
  client_ip : Option String
  deriving DecidableEq, Repr

/-- PolicyRequest from src/authentik/policies/types.py.  The user and the
optional target object are identified by opaque strings, and context values
are modelled as opaque strings as well — the claims only concern which fields
and which context keys change. -/
structure PolicyRequest where
  user : String
  http_request : Option HttpRequest
  obj : Option String
  context : List (String × String)
  deriving DecidableEq, Repr

/-- PolicyRequest.__init__ from src/authentik/policies/types.py: only the user
is supplied; `http_request` and `obj` start as None and `context` as the empty
dict. -/
def PolicyRequest.make (user : String) : PolicyRequest :=
  { user := user, http_request := none, obj := none, context := [] }

/-- Python dict assignment `d[k] = v` on a key-unique association list: replace
the value at `k` if the key is present (keeping its position, as dicts do),
otherwise append the new entry at the end (insertion order). -/
def dictSet (ctx : List (String × String)) (k v : String) : List (String × String) :=
  match ctx with
  | [] => [(k, v)]
  | p :: ps => if p.1 == k then (k, v) :: ps else p :: dictSet ps k v

/-- Python dict lookup `d.get(k)` on an association list. -/
def dictGet (ctx : List (String × String)) (k : String) : Option String :=
  match ctx with
  | [] => none
  | p :: ps => if p.1 == k then some p.2 else dictGet ps k

/-- PolicyRequest.set_http_request from src/authentik/policies/types.py: store
the request in `http_request`; when the GeoIP reader is enabled and a client IP
can be determined, additionally write the city lookup under the context key
"geoip".  `GEOIP_READER` (authentik/events/geo.py, outside the excerpt) is
modelled by the `geoip_enabled` flag and the lookup function `city`. -/
def PolicyRequest.set_http_request (geoip_enabled : Bool) (city : String → String)
    (pr : PolicyRequest) (request : HttpRequest) : PolicyRequest :=
  let pr1 : PolicyRequest := { pr with http_request := some request }
  if geoip_enabled = false then pr1
  else
    match request.client_ip with
    | none => pr1
    | some client_ip => { pr1 with context := dictSet pr1.context "geoip" (city client_ip) }

/-- User from authentik/core/models.py (outside the excerpt): the fields the
stage views read.  `is_anonymous` distinguishes Django's AnonymousUser from a
real user record; a freshly constructed `User(...)` instance is not anonymous,
which the default value records. -/
structure User where
  username : String
  email : String
  is_anonymous : Bool := false
  deriving DecidableEq, Repr

/-- Modelled from the spec: the FlowPlan context map (authentik/flows/planner.py
is not part of the excerpt).  The spec describes it as a shared mutable map
carrying cross-stage data; it is embedded as a record of the keys the excerpt
reads — PLAN_CONTEXT_PENDING_USER_IDENTIFIER ("pending_user_identifier"),
PLAN_CONTEXT_PENDING_USER ("pending_user"), PLAN_CONTEXT_APPLICATION
("application") — plus the remaining arbitrary stage-contributed entries. -/
structure PlanContext where
  pending_user_identifier : Option String
  pending_user : Option User
  application : Option String
  extra : List (String × String)
  deriving DecidableEq, Repr

/-- The empty context map. -/
def PlanContext.empty : PlanContext :=
  { pending_user_identifier := none, pending_user := none, application := none, extra := [] }

/-- Modelled from the spec: FlowPlan (authentik/flows/planner.py is not part of
the excerpt) — the originating flow, an ordered sequence of binding markers yet
to execute, and the shared context map. -/
structure FlowPlan where
  flow_pk : String
  bindings : List FlowStageBinding
  context : PlanContext
  deriving DecidableEq, Repr

/-- The data of a Challenge as the stage views handle it: `is_valid` is the
serializer's own validity check and `response_errors` the annotation written by
`challenge_invalid` (absent on a freshly constructed challenge). -/
structure Challenge where
  is_valid : Bool
  response_errors : Option (List (String × List (String × String)))
  deriving DecidableEq, Repr

/-- One validation error on one field, as `challenge_invalid` serializes it:
`str(error)` and `error.code`. -/
structure FieldError where
  string : String
  code : String
  deriving DecidableEq, Repr

/-- The submitted ChallengeResponse: the outcome of its `is_valid()` check and
the serializer `errors` map (field name → list of errors on that field). -/
structure ChallengeResponseData where
  is_valid : Bool
  errors : List (String × List FieldError)
  deriving DecidableEq, Repr

/-- The slice of FlowExecutorView state that ChallengeStageView reads: the
session's plan, the binding of the stage currently presented
(`executor.current_binding`), and the challenge `_get_challenge` constructs for
the current stage. -/
structure FlowExecutorState where
  plan : FlowPlan
  current_binding : FlowStageBinding
  stage_challenge : Challenge
  deriving DecidableEq, Repr

/-- Modelled from the spec: FlowExecutorView.restart_flow(keep_context)
(authentik/flows/views.py is not part of the excerpt).  Per the spec, RESTART
discards the plan and its context entirely and RESTART_WITH_CONTEXT discards
the stage sequence but passes the context map as `initial_context` to the next
plan.  The value returned is the `initial_context` replanning will receive. -/
def restart_flow (state : FlowExecutorState) (keep_context : Bool) : PlanContext :=
  if keep_context then state.plan.context else PlanContext.empty

/-- The HTTP responses a challenge stage view can produce. -/
inductive StageResponse where
  | http_challenge (challenge : Challenge)
  | server_error (msg : String)
  deriving DecidableEq, Repr

/-- Outcome of ChallengeStageView.post, together with the plan the session
keeps afterwards; the restarted branch discards the plan and records only the
initial context handed to replanning. -/
inductive PostResult where
  | restarted (initial_context : PlanContext)
  | invalid_retried (response : StageResponse) (plan : FlowPlan)
  | valid_delegated (plan : FlowPlan)
  deriving DecidableEq, Repr

/-- The `full_errors` map built by ChallengeStageView.challenge_invalid
(src/authentik/flows/stage.py): for every field and every error on it, the pair
of `str(error)` and `error.code`.  The source loop (`setdefault` + `append`
over `response.errors.items()`) yields, for each field with at least one
error, that field's errors in order; a field whose error list is empty never
reaches the `setdefault` and gets no entry. -/
def fullErrors (errors : List (String × List FieldError)) :
    List (String × List (String × String)) :=
  (errors.filter fun p => !p.2.isEmpty).map fun p =>
    (p.1, p.2.map fun e => (e.string, e.code))

/-- ChallengeStageView.challenge_invalid (src/authentik/flows/stage.py):
re-build the current stage's challenge, annotate it with `response_errors`,
and return it as an HttpChallengeResponse; the plan is untouched. -/
def challenge_invalid (state : FlowExecutorState) (response : ChallengeResponseData) :
    PostResult :=
  PostResult.invalid_retried
    (StageResponse.http_challenge
      { state.stage_challenge with response_errors := some (fullErrors response.errors) })
    state.plan

/-- ChallengeStageView.post (src/authentik/flows/stage.py): validate the
submitted response; on failure, if the current binding's
`invalid_response_action` is RESTART or RESTART_WITH_CONTEXT, restart the
flow with `keep_context` set exactly for RESTART_WITH_CONTEXT, otherwise fall
through to `challenge_invalid`; on success delegate to the stage's
`challenge_valid`. -/
def ChallengeStageView.post (state : FlowExecutorState) (response : ChallengeResponseData) :
    PostResult :=
  if response.is_valid = false then
    if state.current_binding.invalid_response_action ∈
        [InvalidResponseAction.restart, InvalidResponseAction.restart_with_context] then
      let keep_context : Bool :=
        state.current_binding.invalid_response_action == InvalidResponseAction.restart_with_context
      PostResult.restarted (restart_flow state keep_context)
    else challenge_invalid state response
  else PostResult.valid_delegated state.plan

/-- ChallengeStageView.get (src/authentik/flows/stage.py): construct the
challenge; when it fails its own `is_valid()` check, emit a warning log entry;
in every case return `HttpChallengeResponse(challenge)`.  The second component
is the log the handler produced. -/
def ChallengeStageView.get (state : FlowExecutorState) : StageResponse × List String :=
  (StageResponse.http_challenge state.stage_challenge,
    if state.stage_challenge.is_valid = false then ["f(ch): Invalid challenge"] else [])

/-- StageView.get_pending_user (src/authentik/flows/stage.py): when
`for_display` is set and the plan context holds a pending user identifier,
return a transient `User(username=identifier, email="")`; otherwise the plan
context's pending user when present; otherwise `request.user`. -/
def StageView.get_pending_user (state : FlowExecutorState) (request_user : User)
    (for_display : Bool) : User :=
  match state.plan.context.pending_user_identifier, for_display with
  | some ident, true => { username := ident, email := "" }
  | _, _ =>
    match state.plan.context.pending_user with
    | some u => u
    | none => request_user

/-- Factor from passbook/core/models.py (outside the excerpt): the planning
loop in AuthenticationView.dispatch reads its `enabled` column and calls
`factor.passes(pending_user)`; the outcome of `passes` for the fixed pending
user of the request is modelled as the boolean field `passes`. -/
structure Factor where
  ident : Nat
  enabled : Bool
  passes : Bool
  deriving DecidableEq, Repr

/-- The planning loop inside AuthenticationView.dispatch
(src/passbook/core/auth/view.py, lines 51-58): `_all_factors` is the queryset
of enabled factors; for each factor of it whose policy check passes, the code
appends `_all_factors` — the whole queryset object — to `pending_factors`. -/
def dispatch_pending_factors (factors : List Factor) : List (List Factor) :=
  let all_factors := factors.filter fun f => f.enabled
  all_factors.foldl (fun acc f => if f.passes then acc ++ [all_factors] else acc) []

/-- The per-session state AuthenticationView.user_ok operates on: the session's
pending factor list (factor class paths, as `class_to_path` renders them) and
the class path of the factor that just validated. -/
structure AuthState where
  pending_factors : List String
  current_factor : String
  deriving DecidableEq, Repr

/-- Result of AuthenticationView.user_ok: either redirect to a next factor
(storing the remaining list back into the session) or — all factors passed —
`_user_passed()`: log the user in and redirect, with no further challenge. -/
inductive UserOkResult where
  | next_factor (next : String) (session_pending : List String)
  | completed_login
  deriving DecidableEq, Repr

/-- The pending list after AuthenticationView.user_ok removes the passed
factor: `if current in pending: pending.remove(current)` — Python
`list.remove` drops the first occurrence and is skipped when absent. -/
def user_ok_pending (s : AuthState) : List String :=
  if s.current_factor ∈ s.pending_factors then
    s.pending_factors.erase s.current_factor
  else s.pending_factors

/-- AuthenticationView.user_ok (src/passbook/core/auth/view.py, lines 81-97):
remove the passed factor from the pending list; if factors remain,
`next_factor = pending_factors.pop()` — Python `list.pop()` takes the LAST
element — store the rest back into the session and redirect to that factor;
otherwise `_user_passed()` logs the user in and redirects. -/
def user_ok (s : AuthState) : UserOkResult :=
  match (user_ok_pending s).getLast? with
  | some next => UserOkResult.next_factor next (user_ok_pending s).dropLast
  | none => UserOkResult.completed_login

/-- Concrete binding rows used by the C4 counterexample and witness: the same
flow and order value, two different stages. -/
def fsbRowA : FlowStageBinding := FlowStageBinding.make 1 10 0

/-- Second concrete binding row: same flow and order as `fsbRowA`, other stage. -/
def fsbRowB : FlowStageBinding := FlowStageBinding.make 1 11 0

/-- C4, counterexample: two bindings attached to the same flow with the same
order value but different stages satisfy the declared uniqueness constraint
`unique_together = (("target", "stage", "order"),)`, refuting the claim that
order is unique within a flow independent of the referenced stage. -/
theorem c4_counterexample_order_shared_within_flow :
    fsbUniqueTogether [fsbRowA, fsbRowB] ∧ ¬ fsbOrderUniquePerFlow [fsbRowA, fsbRowB] := by
  decide

/-- C4 (amended): under the declared uniqueness constraint, no two
FlowStageBindings attached to the same flow AND referencing the same stage
share an order value; bindings referencing different stages may share one. -/
theorem c4_order_unique_per_flow_and_stage (rows : List FlowStageBinding)
    (h : fsbUniqueTogether rows) : fsbOrderUniquePerFlowStage rows := by
  unfold fsbUniqueTogether at h
  unfold fsbOrderUniquePerFlowStage
  refine List.Pairwise.imp ?_ h
  intro a b hab hts hss ho
  exact hab ⟨hts, hss, ho⟩

/-- Witness for `c4_order_unique_per_flow_and_stage` at a concrete row set. -/
theorem c4_order_unique_per_flow_and_stage_witness :
    fsbUniqueTogether [fsbRowA, fsbRowB] ∧ fsbOrderUniquePerFlowStage [fsbRowA, fsbRowB] :=
  ⟨by decide, c4_order_unique_per_flow_and_stage [fsbRowA, fsbRowB] (by decide)⟩

/-- C9: `in_memory_stage` and the `type` property round-trip — the stage built
from a view class yields exactly that class back — while on any stage whose
in-memory attribute is absent (i.e. not created through `in_memory_stage`, the
only code that sets it) the `type` property raises NotImplementedError. -/
theorem c9_in_memory_stage_roundtrip :
    (∀ (V : Type) (view : V), (in_memory_stage view).type = Except.ok view) ∧
      (∀ (V : Type) (s : Stage V), s.in_memory_type = none →
        s.type = Except.error "NotImplementedError") := by
  constructor
  · intro V view
    rfl
  · intro V s h
    simp [Stage.type, h]

/-- Witness for `c9_in_memory_stage_roundtrip` at a concrete view class. -/
theorem c9_in_memory_stage_roundtrip_witness :
    (in_memory_stage (7 : Nat)).type = Except.ok 7 ∧
      (Stage.mk (V := Nat) none none).type = Except.error "NotImplementedError" :=
  ⟨c9_in_memory_stage_roundtrip.1 Nat 7,
   c9_in_memory_stage_roundtrip.2 Nat (Stage.mk none none) rfl⟩

/-- Lookups at keys other than `k` pass through a `dictSet` at `k` unchanged. -/
theorem dictGet_dictSet_ne (ctx : List (String × String)) (k k' v : String)
    (h : k' ≠ k) : dictGet (dictSet ctx k v) k' = dictGet ctx k' := by
  induction ctx with
  | nil =>
    simp only [dictSet, dictGet]
    have hk : (k == k') = false := by
      simp only [beq_eq_false_iff_ne, ne_eq]
      exact fun he => h he.symm
    simp [hk]
  | cons p ps ih =>
    simp only [dictSet]
    by_cases hp : p.1 == k
    · have hk : (k == k') = false := by
        simp only [beq_eq_false_iff_ne, ne_eq]
        exact fun he => h he.symm
      have hp1 : (p.1 == k') = false := by
        simp only [beq_eq_false_iff_ne, ne_eq]
        intro he
        rw [beq_iff_eq] at hp
        exact h (he.symm.trans hp)
      simp [hp, dictGet, hk, hp1]
    · simp only [hp, if_false, Bool.false_eq_true]
      simp only [dictGet]
      by_cases hp2 : p.1 == k'
      · simp [hp2]
      · simp [hp2, ih]

/-- C10: a freshly constructed PolicyRequest(user) has `http_request = None`,
`obj = None` and an empty context; `set_http_request` sets `http_request` to
the given request, leaves `user` and `obj` and every context key other than
"geoip" unchanged, and leaves the context entirely unchanged when geolocation
is disabled or no client IP can be determined. -/
theorem c10_policy_request_frame (user : String) (geoip_enabled : Bool)
    (city : String → String) (pr : PolicyRequest) (request : HttpRequest) :
    PolicyRequest.make user =
      { user := user, http_request := none, obj := none, context := [] } ∧
    (pr.set_http_request geoip_enabled city request).user = pr.user ∧
    (pr.set_http_request geoip_enabled city request).obj = pr.obj ∧
    (pr.set_http_request geoip_enabled city request).http_request = some request ∧
    (∀ k, k ≠ "geoip" →
      dictGet (pr.set_http_request geoip_enabled city request).context k =
        dictGet pr.context k) ∧
    ((geoip_enabled = false ∨ request.client_ip = none) →
      (pr.set_http_request geoip_enabled city request).context = pr.context) := by
  refine ⟨rfl, ?_, ?_, ?_, ?_, ?_⟩
  · cases geoip_enabled <;> cases hip : request.client_ip <;>
      simp [PolicyRequest.set_http_request, hip]
  · cases geoip_enabled <;> cases hip : request.client_ip <;>
      simp [PolicyRequest.set_http_request, hip]
  · cases geoip_enabled <;> cases hip : request.client_ip <;>
      simp [PolicyRequest.set_http_request, hip]
  · intro k hk
    cases geoip_enabled <;> cases hip : request.client_ip <;>
      simp [PolicyRequest.set_http_request, hip, dictGet_dictSet_ne pr.context "geoip" k _ hk]
  · intro hdis
    cases geoip_enabled with
    | false => simp [PolicyRequest.set_http_request]
    | true =>
      rcases hdis with hgeo | hip
      · exact absurd hgeo (by simp)
      · simp [PolicyRequest.set_http_request, hip]

/-- Witness for `c10_policy_request_frame` at concrete data: an unrelated
context key survives a geoip-writing `set_http_request` unchanged. -/
theorem c10_policy_request_frame_witness :
    dictGet (PolicyRequest.set_http_request true (fun _ => "Berlin")
        { user := "alice", http_request := none, obj := none, context := [("k0", "v0")] }
        { client_ip := some "10.0.0.1" }).context "k0" =
      dictGet [("k0", "v0")] "k0" :=
  (c10_policy_request_frame "alice" true (fun _ => "Berlin")
      { user := "alice", http_request := none, obj := none, context := [("k0", "v0")] }
      { client_ip := some "10.0.0.1" }).2.2.2.2.1 "k0" (by decide)

/-- A structurally valid challenge used by the concrete executor states. -/
def demoChallengeOk : Challenge := { is_valid := true, response_errors := none }

/-- A challenge failing its own validity check, for the C7 witness. -/
def demoChallengeBad : Challenge := { is_valid := false, response_errors := none }

/-- A plan context carrying a pending user identifier. -/
def demoContext : PlanContext :=
  { pending_user_identifier := some "alice", pending_user := none,
    application := none, extra := [] }

/-- A concrete session plan. -/
def demoPlan : FlowPlan :=
  { flow_pk := "default-authentication-flow", bindings := [], context := demoContext }

/-- A binding whose invalid-response action is RESTART_WITH_CONTEXT. -/
def demoBindingRwc : FlowStageBinding :=
  { FlowStageBinding.make 1 10 0 with
      invalid_response_action := InvalidResponseAction.restart_with_context }

/-- Executor state currently presenting the RESTART_WITH_CONTEXT binding. -/
def demoStateRwc : FlowExecutorState :=
  { plan := demoPlan, current_binding := demoBindingRwc, stage_challenge := demoChallengeOk }

/-- Executor state currently presenting a default (RETRY) binding. -/
def demoStateRetry : FlowExecutorState :=
  { plan := demoPlan, current_binding := FlowStageBinding.make 1 10 0,
    stage_challenge := demoChallengeOk }

/-- Executor state whose constructed challenge is itself invalid. -/
def demoStateBadChallenge : FlowExecutorState :=
  { plan := demoPlan, current_binding := FlowStageBinding.make 1 10 0,
    stage_challenge := demoChallengeBad }

/-- A submitted challenge response that fails validation with one field error. -/
def demoInvalidResponse : ChallengeResponseData :=
  { is_valid := false,
    errors := [("password", [{ string := "Invalid password", code := "invalid" }])] }

/-- The request's own (anonymous) user, for the C8 witness. -/
def demoRequestUser : User :=
  { username := "", email := "", is_anonymous := true }

/-- C1: for every POST of a challenge response that fails validation, the
executor restarts the flow iff the current binding's `invalid_response_action`
is RESTART or RESTART_WITH_CONTEXT; the restarted session's initial context is
the plan's context map exactly under RESTART_WITH_CONTEXT and the empty
(discarded) context under RESTART. -/
theorem c1_invalid_response_restart (state : FlowExecutorState)
    (response : ChallengeResponseData) (h : response.is_valid = false) :
    ((∃ ctx, ChallengeStageView.post state response = PostResult.restarted ctx) ↔
      (state.current_binding.invalid_response_action = InvalidResponseAction.restart ∨
        state.current_binding.invalid_response_action =
          InvalidResponseAction.restart_with_context)) ∧
    (state.current_binding.invalid_response_action =
        InvalidResponseAction.restart_with_context →
      ChallengeStageView.post state response = PostResult.restarted state.plan.context) ∧
    (state.current_binding.invalid_response_action = InvalidResponseAction.restart →
      ChallengeStageView.post state response = PostResult.restarted PlanContext.empty) := by
  cases ha : state.current_binding.invalid_response_action <;>
    simp [ChallengeStageView.post, challenge_invalid, restart_flow, h, ha]

/-- Witness for `c1_invalid_response_restart`: a RESTART_WITH_CONTEXT binding
with an invalid response restarts the flow carrying the plan's context. -/
theorem c1_invalid_response_restart_witness :
    ChallengeStageView.post demoStateRwc demoInvalidResponse =
      PostResult.restarted demoStateRwc.plan.context :=
  (c1_invalid_response_restart demoStateRwc demoInvalidResponse rfl).2.1 rfl

/-- C5: `invalid_response_action` defaults to RETRY; under RETRY an invalid
response re-issues the same stage's challenge annotated with a
`response_errors` map carrying, for every field and every validation error on
that field, that error's message string and error code; the session's plan —
in particular its pending sequence — is returned unmodified. -/
theorem c5_retry_default_and_error_detail (target stage : Nat) (order : Int)
    (state : FlowExecutorState) (response : ChallengeResponseData)
    (hv : response.is_valid = false)
    (ha : state.current_binding.invalid_response_action = InvalidResponseAction.retry) :
    (FlowStageBinding.make target stage order).invalid_response_action =
      InvalidResponseAction.retry ∧
    ChallengeStageView.post state response =
      PostResult.invalid_retried
        (StageResponse.http_challenge
          { state.stage_challenge with
              response_errors := some (fullErrors response.errors) })
        state.plan ∧
    (∀ field errs, (field, errs) ∈ response.errors → ∀ e, e ∈ errs →
      ∃ mapped, (field, mapped) ∈ fullErrors response.errors ∧
        (e.string, e.code) ∈ mapped) := by
  refine ⟨rfl, ?_, ?_⟩
  · simp [ChallengeStageView.post, challenge_invalid, hv, ha]
  · intro field errs hmem e he
    refine ⟨errs.map fun e => (e.string, e.code), ?_, ?_⟩
    · have hne : errs.isEmpty = false := by
        cases errs with
        | nil => cases he
        | cons a l => rfl
      have hf : (field, errs) ∈ response.errors.filter fun p => !p.2.isEmpty := by
        rw [List.mem_filter]
        exact ⟨hmem, by simp [hne]⟩
      exact List.mem_map_of_mem _ hf
    · exact List.mem_map_of_mem _ he

/-- Witness for `c5_retry_default_and_error_detail`: a default (RETRY)
binding with a concrete invalid response re-issues the annotated challenge and
keeps the plan. -/
theorem c5_retry_default_and_error_detail_witness :
    (FlowStageBinding.make 1 10 0).invalid_response_action =
      InvalidResponseAction.retry ∧
    ChallengeStageView.post demoStateRetry demoInvalidResponse =
      PostResult.invalid_retried
        (StageResponse.http_challenge
          { demoStateRetry.stage_challenge with
              response_errors := some (fullErrors demoInvalidResponse.errors) })
        demoStateRetry.plan :=
  ⟨(c5_retry_default_and_error_detail 1 10 0 demoStateRetry demoInvalidResponse
      rfl rfl).1,
   (c5_retry_default_and_error_detail 1 10 0 demoStateRetry demoInvalidResponse
      rfl rfl).2.1⟩

/-- C7: every GET while a stage is pending returns the constructed challenge as
the HTTP response, even when the challenge fails its own validity check — the
invalid case is logged, never raised, and never replaces the response. -/
theorem c7_get_always_returns_challenge (state : FlowExecutorState) :
    (ChallengeStageView.get state).1 =
      StageResponse.http_challenge state.stage_challenge ∧
    (state.stage_challenge.is_valid = false →
      (ChallengeStageView.get state).2 = ["f(ch): Invalid challenge"]) ∧
    (∀ msg, (ChallengeStageView.get state).1 ≠ StageResponse.server_error msg) := by
  refine ⟨rfl, ?_, ?_⟩
  · intro h
    simp [ChallengeStageView.get, h]
  · intro msg
    simp [ChallengeStageView.get]

/-- Witness for `c7_get_always_returns_challenge`: a state whose constructed
challenge is invalid still gets it back as the response, with the warning
logged. -/
theorem c7_get_always_returns_challenge_witness :
    (ChallengeStageView.get demoStateBadChallenge).1 =
      StageResponse.http_challenge demoStateBadChallenge.stage_challenge ∧
    (ChallengeStageView.get demoStateBadChallenge).2 = ["f(ch): Invalid challenge"] :=
  ⟨(c7_get_always_returns_challenge demoStateBadChallenge).1,
   (c7_get_always_returns_challenge demoStateBadChallenge).2.1 rfl⟩

/-- C8: `get_pending_user` resolves the pending user by fixed precedence —
the transient identifier user when `for_display` is set and the identifier key
is present, else the context's pending user, else `request.user`; being a total
function into `User`, it never returns an absent value. -/
theorem c8_get_pending_user_precedence (state : FlowExecutorState)
    (request_user : User) (for_display : Bool) :
    (∀ ident, state.plan.context.pending_user_identifier = some ident →
      for_display = true →
      StageView.get_pending_user state request_user for_display =
        { username := ident, email := "", is_anonymous := false }) ∧
    (∀ u, (state.plan.context.pending_user_identifier = none ∨ for_display = false) →
      state.plan.context.pending_user = some u →
      StageView.get_pending_user state request_user for_display = u) ∧
    ((state.plan.context.pending_user_identifier = none ∨ for_display = false) →
      state.plan.context.pending_user = none →
      StageView.get_pending_user state request_user for_display = request_user) := by
  refine ⟨?_, ?_, ?_⟩
  · intro ident hi hd
    simp [StageView.get_pending_user, hi, hd]
  · intro u hcase hu
    rcases hcase with hn | hf
    · cases for_display <;> simp [StageView.get_pending_user, hn, hu]
    · cases hi : state.plan.context.pending_user_identifier <;>
        simp [StageView.get_pending_user, hi, hf, hu]
  · intro hcase hu
    rcases hcase with hn | hf
    · cases for_display <;> simp [StageView.get_pending_user, hn, hu]
    · cases hi : state.plan.context.pending_user_identifier <;>
        simp [StageView.get_pending_user, hi, hf, hu]

/-- Witness for `c8_get_pending_user_precedence`: a pending identifier in the
plan context wins for display purposes over the request user. -/
theorem c8_get_pending_user_precedence_witness :
    StageView.get_pending_user demoStateRwc demoRequestUser true =
      { username := "alice", email := "", is_anonymous := false } :=
  (c8_get_pending_user_precedence demoStateRwc demoRequestUser true).1 "alice" rfl rfl

/-- An enabled factor passing its policy check for the pending user. -/
def demoFactorIdent : Factor := { ident := 0, enabled := true, passes := true }

/-- An enabled factor failing its policy check for the pending user. -/
def demoFactorLocked : Factor := { ident := 1, enabled := true, passes := false }

/-- C3, code evaluation: with one passing and one failing enabled factor, the
planning loop in `AuthenticationView.dispatch` produces a single entry that is
the whole candidate list — `_all_factors`, including the failing factor — not
one entry per passing factor consisting of that factor itself.  The claim's
expected sequence would contribute exactly `demoFactorIdent`, and its "only
entries that passed" consequence fails because the failing factor sits inside
the produced entry. -/
theorem c3_dispatch_appends_whole_queryset :
    dispatch_pending_factors [demoFactorIdent, demoFactorLocked] =
      [[demoFactorIdent, demoFactorLocked]] ∧
    demoFactorLocked.passes = false ∧
    demoFactorLocked ∈ [demoFactorIdent, demoFactorLocked] := by
  refine ⟨rfl, rfl, ?_⟩
  simp

/-- C2, code evaluation: with session pending factors `["a", "b", "c"]` and the
front factor `"a"` just validated, `user_ok` presents `"c"` next — Python
`list.pop()` takes the back of the list — and stores `["b"]`; FIFO consumption
(and `dispatch`'s own initial pick `pending_factors[0]`) requires `"b"`. -/
theorem c2_user_ok_pops_back :
    user_ok { pending_factors := ["a", "b", "c"], current_factor := "a" } =
      UserOkResult.next_factor "c" ["b"] ∧
    ("c" : String) ≠ "b" := by
  constructor
  · rfl
  · decide

/-- C6: after a valid response — with the passed factor occurring at most once
in the pending list, as distinct factor class paths do — the completed entry is
no longer in the pending sequence; the executor reaches the terminal logged-in
redirect (`_user_passed`, no further challenge) iff the remaining sequence is
empty, and otherwise presents an entry drawn from the remaining pending
sequence, storing the rest back into the session. -/
theorem user_ok_eq_of_getLast_some (s : AuthState) (next : String)
    (hl : (user_ok_pending s).getLast? = some next) :
    user_ok s = UserOkResult.next_factor next (user_ok_pending s).dropLast := by
  unfold user_ok
  rw [hl]

/-- `user_ok` reaches `_user_passed` exactly when the pending list (after
removal of the passed factor) is exhausted. -/
theorem user_ok_eq_of_getLast_none (s : AuthState)
    (hl : (user_ok_pending s).getLast? = none) :
    user_ok s = UserOkResult.completed_login := by
  unfold user_ok
  rw [hl]

/-- C6: after a valid response — with the passed factor occurring at most once
in the pending list, as distinct factor class paths do — the completed entry is
no longer in the pending sequence; the executor reaches the terminal logged-in
redirect (`_user_passed`, no further challenge) iff the remaining sequence is
empty, and otherwise presents an entry drawn from the remaining pending
sequence, storing the rest back into the session. -/
theorem c6_user_ok_removes_and_advances (s : AuthState)
    (h : s.pending_factors.count s.current_factor ≤ 1) :
    s.current_factor ∉ user_ok_pending s ∧
    (user_ok s = UserOkResult.completed_login ↔ user_ok_pending s = []) ∧
    (∀ next rest, user_ok s = UserOkResult.next_factor next rest →
      next ∈ user_ok_pending s ∧ rest = (user_ok_pending s).dropLast) := by
  refine ⟨?_, ?_, ?_⟩
  · unfold user_ok_pending
    by_cases hmem : s.current_factor ∈ s.pending_factors
    · rw [if_pos hmem]
      have hc : (s.pending_factors.erase s.current_factor).count s.current_factor = 0 := by
        rw [List.count_erase_self]
        omega
      exact List.count_eq_zero.mp hc
    · rw [if_neg hmem]
      exact hmem
  · cases hl : (user_ok_pending s).getLast? with
    | none =>
      rw [user_ok_eq_of_getLast_none s hl]
      simp [List.getLast?_eq_none_iff.mp hl]
    | some next =>
      rw [user_ok_eq_of_getLast_some s next hl]
      have hne : user_ok_pending s ≠ [] := by
        intro hcontra
        rw [hcontra] at hl
        cases hl
      simp [hne]
  · intro next rest heq
    cases hl : (user_ok_pending s).getLast? with
    | none =>
      rw [user_ok_eq_of_getLast_none s hl] at heq
      cases heq
    | some last =>
      rw [user_ok_eq_of_getLast_some s last hl] at heq
      cases heq
      exact ⟨List.mem_of_getLast?_eq_some hl, rfl⟩

/-- Witness for `c6_user_ok_removes_and_advances`: a single pending factor that
just passed is removed and the session completes. -/
theorem c6_user_ok_removes_and_advances_witness :
    ("pb.f.password" : String) ∉
      user_ok_pending { pending_factors := ["pb.f.password"],
                        current_factor := "pb.f.password" } ∧
    (user_ok { pending_factors := ["pb.f.password"],
               current_factor := "pb.f.password" } = UserOkResult.completed_login ↔
      user_ok_pending { pending_factors := ["pb.f.password"],
                        current_factor := "pb.f.password" } = []) :=
  ⟨(c6_user_ok_removes_and_advances
      { pending_factors := ["pb.f.password"], current_factor := "pb.f.password" }
      (by decide)).1,
   (c6_user_ok_removes_and_advances
      { pending_factors := ["pb.f.password"], current_factor := "pb.f.password" }
      (by decide)).2.1⟩
